import Mathlib

/-!
Shallow embedding of `src/XenaxController.py` (class `XenaxController`).

The transport (a TCP socket) is modelled inside the client state:
* `sockTimeout` mirrors the Python socket's timeout (`none` = blocking with no
  timeout, i.e. `settimeout(None)`; `some t` = timeout of `t` milliseconds,
  `some 0` = non-blocking).  Python's `getblocking()` is `gettimeout() != 0`.
* `recvEvents` is the schedule of outcomes of successive `recv` calls:
  delivered bytes (the empty string is a zero-byte read, i.e. peer closed),
  a `socket.timeout`, or another `socket.error`.  An exhausted schedule means
  no further data arrives: with a finite timeout set, `recv` raises
  `socket.timeout`; in blocking mode it blocks forever (outcome `blocked`).
* `sendOutcomes` is the schedule of outcomes of successive `sendall` calls
  (`false` = the write raises `socket.error`); an exhausted schedule means
  the writes succeed.
* `trace` records the externally visible actions: bytes written to the wire
  and `time.sleep` pauses (in milliseconds).
Bytes are modelled as `String` (`decode` is the identity: the protocol is
ASCII and no claim concerns undecodable replies).  Exceptions are modelled by
an `Except` result; a propagating exception carries the state at raise time,
matching Python semantics where handlers up the stack see that state.
-/

namespace Xenax

/-- Outcome of one `socket.recv` call, scheduled by the environment. -/
inductive RecvEvent where
  | bytes (b : String)
  | timedOut
  | sockError
deriving DecidableEq, Repr

/-- Externally visible action: bytes sent on the wire, or a sleep (ms). -/
inductive Ev where
  | send (s : String)
  | sleepMs (n : Nat)
deriving DecidableEq, Repr

/-- Python exceptions relevant to the client, plus `blocked` for a `recv`
that would block forever (not an exception: nothing catches it). -/
inductive PyErr where
  | valueError
  | typeError
  | sockErr
  | timeoutErr
  | blocked
deriving DecidableEq, Repr

/-- State of an `XenaxController` instance together with its socket and the
transport environment. -/
structure Client where
  ip_address : String
  port : Int
  limit_left : Int
  limit_right : Int
  speed : Int
  acceleration : Int
  sockTimeout : Option Nat
  sockClosed : Bool
  last_response : String
  recvEvents : List RecvEvent
  sendOutcomes : List Bool
  trace : List Ev
deriving DecidableEq, Repr

/-- `socket.getblocking()`: true unless the timeout is zero. -/
def getblocking (cl : Client) : Bool :=
  cl.sockTimeout != some 0

/-- `socket.setblocking(b)`: sets the timeout to `None` (truthy `b`) or `0`. -/
def setblocking (cl : Client) (b : Bool) : Client :=
  { cl with sockTimeout := if b then none else some 0 }

/-- `socket.settimeout(t)`. -/
def settimeout (cl : Client) (t : Option Nat) : Client :=
  { cl with sockTimeout := t }

/-- `socket.recv(1024)`: pops the next scheduled outcome.  On an exhausted
schedule: `socket.timeout` if a finite timeout is set, otherwise the call
blocks forever. -/
def recv (cl : Client) : Client × Except PyErr String :=
  match cl.recvEvents with
  | [] =>
      match cl.sockTimeout with
      | some _ => (cl, .error .timeoutErr)
      | none => (cl, .error .blocked)
  | e :: rest =>
      let cl1 := { cl with recvEvents := rest }
      match e with
      | .bytes b => (cl1, .ok b)
      | .timedOut => (cl1, .error .timeoutErr)
      | .sockError => (cl1, .error .sockErr)

/-- `socket.sendall(s)`: pops the next scheduled outcome; on success the
bytes appear on the wire (recorded in the trace). -/
def sendall (cl : Client) (s : String) : Client × Except PyErr Unit :=
  match cl.sendOutcomes with
  | [] => ({ cl with trace := cl.trace ++ [.send s] }, .ok ())
  | true :: rest =>
      ({ cl with sendOutcomes := rest, trace := cl.trace ++ [.send s] }, .ok ())
  | false :: rest =>
      ({ cl with sendOutcomes := rest }, .error .sockErr)

/-- `time.sleep(n/1000)`, recorded in the trace. -/
def sleepMs (cl : Client) (n : Nat) : Client :=
  { cl with trace := cl.trace ++ [.sleepMs n] }

/-- The delimiter set of `str.strip('> \r\n')` in `read_response`. -/
def stripChars : List Char := ['>', ' ', '\r', '\n']

/-- Python `s.strip('> \r\n')`: removes characters of the set from both
ends of the string. -/
def pyStrip (s : String) : String :=
  ⟨((s.data.dropWhile (fun c => stripChars.contains c)).reverse.dropWhile
      (fun c => stripChars.contains c)).reverse⟩

/-- Why a `clear_buffer` run stopped draining. -/
inductive StopReason where
  | zeroRead
  | timedOut
  | errored
deriving DecidableEq, Repr

/-- The `while True` drain loop of `clear_buffer`, run with a 100 ms timeout
set: each iteration consumes one `recv` outcome; a zero-byte read breaks, a
`socket.timeout` is caught (`pass`), any other `socket.error` propagates; an
exhausted schedule is a `socket.timeout` (no data arrives within 100 ms). -/
def clearLoop : List RecvEvent → List RecvEvent × Except PyErr Unit × StopReason
  | [] => ([], .ok (), .timedOut)
  | .bytes b :: rest =>
      if b = "" then (rest, .ok (), .zeroRead) else clearLoop rest
  | .timedOut :: rest => (rest, .ok (), .timedOut)
  | .sockError :: rest => (rest, .error .sockErr, .errored)

/-- `clear_buffer`: `settimeout(0.1)`, drain loop, and — in a `finally`
block, so on every exit path — `settimeout(None)`. -/
def clear_buffer (cl : Client) : Client × Except PyErr Unit :=
  let cl1 := settimeout cl (some 100)
  let r := clearLoop cl1.recvEvents
  (settimeout { cl1 with recvEvents := r.1 } none, r.2.1)

/-- `read_response`: one blocking `recv`, decode, strip delimiters; any
`socket.error` (timeouts included) is caught and yields `""`.  A `recv` that
blocks forever is not an exception and is not caught. -/
def read_response (cl : Client) : Client × Except PyErr String :=
  let r := recv cl
  match r.2 with
  | .ok b => (r.1, .ok (pyStrip b))
  | .error .blocked => (r.1, .error .blocked)
  | .error _ => (r.1, .ok "")

/-- `send_command`: save blocking mode, force blocking, clear the buffer,
send `command + '\r'`, read and store the response, restore the saved mode.
There is no `try`/`finally`: an exception from `clear_buffer` or `sendall`
propagates without reaching the restore line. -/
def send_command (cl : Client) (command : String) : Client × Except PyErr Unit :=
  let original_blocking_mode := getblocking cl
  let cl1 := setblocking cl true
  match clear_buffer cl1 with
  | (cl2, .error e) => (cl2, .error e)
  | (cl2, .ok ()) =>
      let full_command := command ++ "\r"
      match sendall cl2 full_command with
      | (cl3, .error e) => (cl3, .error e)
      | (cl3, .ok ()) =>
          match read_response cl3 with
          | (cl4, .error e) => (cl4, .error e)
          | (cl4, .ok resp) =>
              (setblocking { cl4 with last_response := resp }
                original_blocking_mode, .ok ())

/-- `response()`: the cached last response. -/
def response (cl : Client) : String :=
  cl.last_response

/-- `set_speed(value, during_init)`: validate range, store, and (outside
construction-time initialization) send `SP<value>`. -/
def set_speed (cl : Client) (value : Int) (during_init : Bool) :
    Client × Except PyErr Unit :=
  if 50 ≤ value ∧ value ≤ 10000000 then
    let cl1 := { cl with speed := value }
    if during_init then (cl1, .ok ())
    else send_command cl1 ("SP" ++ toString value)
  else (cl, .error .valueError)

/-- `get_speed()`. -/
def get_speed (cl : Client) : Int :=
  cl.speed

/-- `set_acceleration(value, during_init)`: validate range, store, and
(outside construction-time initialization) send `AC<value>`. -/
def set_acceleration (cl : Client) (value : Int) (during_init : Bool) :
    Client × Except PyErr Unit :=
  if 100000 ≤ value ∧ value ≤ 10000000 then
    let cl1 := { cl with acceleration := value }
    if during_init then (cl1, .ok ())
    else send_command cl1 ("AC" ++ toString value)
  else (cl, .error .valueError)

/-- `get_acceleration()`. -/
def get_acceleration (cl : Client) : Int :=
  cl.acceleration

/-- The five setup commands of the initialization sequence. -/
def initCommands : List String := ["ECH0", "PW", "EVT1", "HORM", "EVT0"]

/-- The `for cmd in commands` loop of `initialize`: send each command and
sleep 200 ms after it; an exception from a send propagates. -/
def initLoop : Client → List String → Client × Except PyErr Unit
  | cl, [] => (cl, .ok ())
  | cl, c :: rest =>
      match send_command cl c with
      | (cl1, .error e) => (cl1, .error e)
      | (cl1, .ok ()) => initLoop (sleepMs cl1 200) rest

/-- `initialize()`: the five setup commands (each followed by the 200 ms
settle sleep), then `set_speed(self.speed)` and
`set_acceleration(self.acceleration)` — with no sleep between those two. -/
def init_controller (cl : Client) : Client × Except PyErr Unit :=
  match initLoop cl initCommands with
  | (cl1, .error e) => (cl1, .error e)
  | (cl1, .ok ()) =>
      match set_speed cl1 cl1.speed false with
      | (cl2, .error e) => (cl2, .error e)
      | (cl2, .ok ()) => set_acceleration cl2 cl2.acceleration false

/-- `disconnect()`: `send_command("PQ")` then `self.socket.close()`.  There
is no `try`/`finally`: an exception from the send propagates and the close
line is never reached. -/
def disconnect (cl : Client) : Client × Except PyErr Unit :=
  match send_command cl "PQ" with
  | (cl1, .error e) => (cl1, .error e)
  | (cl1, .ok ()) => ({ cl1 with sockClosed := true }, .ok ())

/-- A value passed to `set_position`: a Python `int`, a Python `float`
(modelled as a rational: only exact truncation to `int` is performed on it),
or a non-numeric value. -/
inductive PyVal where
  | int (n : Int)
  | float (q : ℚ)
  | other
deriving DecidableEq

/-- Python `int(q)` on a float: truncation toward zero. -/
def ratTrunc (q : ℚ) : Int :=
  Int.tdiv q.num (q.den : Int)

/-- The bounds-check-and-send part of `set_position`, applied after the
input has been narrowed to an integer. -/
def set_position_checked (cl : Client) (value : Int) :
    Client × Except PyErr Unit :=
  if cl.limit_left ≤ value ∧ value ≤ cl.limit_right then
    send_command cl ("G" ++ toString value)
  else (cl, .error .valueError)

/-- `set_position(value)`: a float is truncated to `int` first, a
non-`int`/`float` raises `TypeError`, then the limits are checked and
`G<value>` is sent. -/
def set_position (cl : Client) (v : PyVal) : Client × Except PyErr Unit :=
  match v with
  | .float q => set_position_checked cl (ratTrunc q)
  | .int n => set_position_checked cl n
  | .other => (cl, .error .typeError)

/-- `get_position()`: `send_command("TP")`, then return the cleaned
response. -/
def get_position (cl : Client) : Client × Except PyErr String :=
  match send_command cl "TP" with
  | (cl1, .error e) => (cl1, .error e)
  | (cl1, .ok ()) => (cl1, .ok (response cl1))

/-- The `center_position` property: `(limit_left + limit_right) // 2`,
Python floor division. -/
def center_position (cl : Client) : Int :=
  Int.fdiv (cl.limit_left + cl.limit_right) 2

/-- A concrete client state with limits `[0, 10000]`, speed `100000`,
acceleration `1000000`, a non-blocking socket, and the given transport
schedules. -/
def mkClient (re : List RecvEvent) (so : List Bool) : Client :=
  { ip_address := "10.0.0.5"
    port := 10001
    limit_left := 0
    limit_right := 10000
    speed := 100000
    acceleration := 1000000
    sockTimeout := some 0
    sockClosed := false
    last_response := ""
    recvEvents := re
    sendOutcomes := so
    trace := [] }

/-- True when the trace contains two wire sends with no other event (in
particular no sleep) between them. -/
def hasAdjacentSends : List Ev → Bool
  | Ev.send _ :: Ev.send _ :: _ => true
  | _ :: rest => hasAdjacentSends rest
  | [] => false

/-- A benign transport schedule for seven command exchanges: each
`clear_buffer` drain times out at once and each reply is `"a"`. -/
def benign7 : List RecvEvent :=
  [.timedOut, .bytes "a", .timedOut, .bytes "a", .timedOut, .bytes "a",
   .timedOut, .bytes "a", .timedOut, .bytes "a", .timedOut, .bytes "a",
   .timedOut, .bytes "a"]

/-- Restoring a saved blocking mode yields that mode back. -/
theorem getblocking_setblocking (cl : Client) (b : Bool) :
    getblocking (setblocking cl b) = b := by
  cases b <;> simp [getblocking, setblocking]

/-- Behaviour of `send_command` in a benign environment: the drain loop hits
the 100 ms timeout at once, the write succeeds, and the reply `r` arrives.
The command goes out with a trailing CR, the stripped reply is cached, and
the saved blocking mode is restored. -/
theorem send_command_benign (cl : Client) (c r : String) (rest : List RecvEvent)
    (hrecv : cl.recvEvents = RecvEvent.timedOut :: RecvEvent.bytes r :: rest)
    (hsend : cl.sendOutcomes = []) :
    send_command cl c =
      (setblocking
        { cl with recvEvents := rest,
                  trace := cl.trace ++ [Ev.send (c ++ "\r")],
                  last_response := pyStrip r }
        (getblocking cl), Except.ok ()) := by
  simp [send_command, clear_buffer, settimeout, setblocking, clearLoop,
    hrecv, hsend, sendall, read_response, recv]

/-- A `clear_buffer` drain that ends without an exception stopped on a
zero-byte read or on the 100 ms timeout. -/
theorem clearLoop_ok_reason (evs : List RecvEvent) :
    (clearLoop evs).2.1 = Except.ok () →
    (clearLoop evs).2.2 = StopReason.zeroRead ∨
    (clearLoop evs).2.2 = StopReason.timedOut := by
  induction evs with
  | nil => intro _; right; rfl
  | cons e rest ih =>
    cases e with
    | bytes b =>
        by_cases hb : b = "" <;> simp [clearLoop, hb]
        exact fun h => ih h
    | timedOut => simp [clearLoop]
    | sockError => simp [clearLoop]

/-- C1: the claim says `send_command` restores the saved blocking mode on
every exit path, exceptional ones included.  The code has no
`try`/`finally`, so when `sendall` raises the restore on line 74 is never
reached: starting from a non-blocking socket, after a failing send the
exception propagates and the socket is left in blocking mode. -/
theorem send_command_no_restore_on_send_failure :
    (send_command (mkClient [] [false]) "TP").2 = Except.error PyErr.sockErr ∧
    getblocking (mkClient [] [false]) = false ∧
    getblocking (send_command (mkClient [] [false]) "TP").1 = true :=
  ⟨rfl, rfl, rfl⟩

/-- C2: the claim says `disconnect` closes the socket on every exit path.
The code has no `try`/`finally`, so when the power-off send of `PQ` raises a
transport error the exception propagates and `socket.close()` is never
reached: the socket stays open. -/
theorem disconnect_no_close_on_send_failure :
    (disconnect (mkClient [] [false])).2 = Except.error PyErr.sockErr ∧
    (disconnect (mkClient [] [false])).1.sockClosed = false :=
  ⟨rfl, rfl⟩

/-- C3: for integer `v` in `[50, 10000000]`, `set_speed v` (outside
construction-time initialization) succeeds, stores `v` (so `get_speed`
returns `v`) and sends exactly `SP<v>`; outside the range it raises
`ValueError` and leaves the whole state unchanged.  The same holds for
`set_acceleration` with range `[100000, 10000000]` and command `AC<v>`. -/
theorem set_speed_set_acceleration_spec (cl : Client) (v : Int) (r : String)
    (rest : List RecvEvent)
    (hrecv : cl.recvEvents = RecvEvent.timedOut :: RecvEvent.bytes r :: rest)
    (hsend : cl.sendOutcomes = []) :
    (50 ≤ v ∧ v ≤ 10000000 →
      (set_speed cl v false).2 = Except.ok () ∧
      get_speed (set_speed cl v false).1 = v ∧
      (set_speed cl v false).1.trace =
        cl.trace ++ [Ev.send ("SP" ++ toString v ++ "\r")]) ∧
    (¬(50 ≤ v ∧ v ≤ 10000000) →
      (set_speed cl v false).2 = Except.error PyErr.valueError ∧
      (set_speed cl v false).1 = cl) ∧
    (100000 ≤ v ∧ v ≤ 10000000 →
      (set_acceleration cl v false).2 = Except.ok () ∧
      get_acceleration (set_acceleration cl v false).1 = v ∧
      (set_acceleration cl v false).1.trace =
        cl.trace ++ [Ev.send ("AC" ++ toString v ++ "\r")]) ∧
    (¬(100000 ≤ v ∧ v ≤ 10000000) →
      (set_acceleration cl v false).2 = Except.error PyErr.valueError ∧
      (set_acceleration cl v false).1 = cl) := by
  refine ⟨?_, ?_, ?_, ?_⟩
  · intro h
    have hb := send_command_benign { cl with speed := v } ("SP" ++ toString v)
      r rest (by simpa using hrecv) (by simpa using hsend)
    simp [set_speed, h, hb, get_speed, setblocking]
  · intro h
    simp [set_speed, h]
  · intro h
    have hb := send_command_benign { cl with acceleration := v }
      ("AC" ++ toString v) r rest (by simpa using hrecv) (by simpa using hsend)
    simp [set_acceleration, h, hb, get_acceleration, setblocking]
  · intro h
    simp [set_acceleration, h]

/-- C3 witness: with limits/speed as constructed and a benign transport,
`set_speed 500` succeeds and stores `500`, while `set_speed 49` raises
`ValueError` and leaves the state unchanged. -/
theorem set_speed_set_acceleration_spec_witness :
    (set_speed (mkClient [RecvEvent.timedOut, RecvEvent.bytes "a"] []) 500 false).2
        = Except.ok () ∧
    get_speed (set_speed (mkClient [RecvEvent.timedOut, RecvEvent.bytes "a"] [])
        500 false).1 = 500 ∧
    (set_speed (mkClient [RecvEvent.timedOut, RecvEvent.bytes "a"] []) 49 false).2
        = Except.error PyErr.valueError := by
  have h1 := (set_speed_set_acceleration_spec
    (mkClient [RecvEvent.timedOut, RecvEvent.bytes "a"] []) 500 "a" [] rfl rfl).1
    (by decide)
  have h2 := ((set_speed_set_acceleration_spec
    (mkClient [RecvEvent.timedOut, RecvEvent.bytes "a"] []) 49 "a" [] rfl rfl).2.1
    (by decide)).1
  exact ⟨h1.1, h1.2.1, h2⟩

/-- C4: `set_position` truncates a float toward the integer domain before
the bounds check, rejects a non-numeric value with `TypeError` before any
I/O, sends exactly `G<v>` when `limit_left ≤ v ≤ limit_right`, and raises
`ValueError` with nothing sent when `v` is out of limits.  (On the wire the
command is followed by the CR appended by `send_command`.) -/
theorem set_position_spec (cl : Client) (n : Int) (q : ℚ) (r : String)
    (rest : List RecvEvent)
    (hrecv : cl.recvEvents = RecvEvent.timedOut :: RecvEvent.bytes r :: rest)
    (hsend : cl.sendOutcomes = []) :
    (set_position cl PyVal.other = (cl, Except.error PyErr.typeError)) ∧
    (cl.limit_left ≤ n ∧ n ≤ cl.limit_right →
      (set_position cl (PyVal.int n)).2 = Except.ok () ∧
      (set_position cl (PyVal.int n)).1.trace =
        cl.trace ++ [Ev.send ("G" ++ toString n ++ "\r")]) ∧
    (¬(cl.limit_left ≤ n ∧ n ≤ cl.limit_right) →
      (set_position cl (PyVal.int n)).2 = Except.error PyErr.valueError ∧
      (set_position cl (PyVal.int n)).1 = cl) ∧
    (cl.limit_left ≤ ratTrunc q ∧ ratTrunc q ≤ cl.limit_right →
      (set_position cl (PyVal.float q)).2 = Except.ok () ∧
      (set_position cl (PyVal.float q)).1.trace =
        cl.trace ++ [Ev.send ("G" ++ toString (ratTrunc q) ++ "\r")]) ∧
    (¬(cl.limit_left ≤ ratTrunc q ∧ ratTrunc q ≤ cl.limit_right) →
      (set_position cl (PyVal.float q)).2 = Except.error PyErr.valueError ∧
      (set_position cl (PyVal.float q)).1 = cl) := by
  refine ⟨rfl, ?_, ?_, ?_, ?_⟩
  · intro h
    have hb := send_command_benign cl ("G" ++ toString n) r rest hrecv hsend
    simp [set_position, set_position_checked, h, hb, setblocking]
  · intro h
    simp [set_position, set_position_checked, h]
  · intro h
    have hb := send_command_benign cl ("G" ++ toString (ratTrunc q)) r rest
      hrecv hsend
    simp [set_position, set_position_checked, h, hb, setblocking]
  · intro h
    simp [set_position, set_position_checked, h]

/-- C4 witness: with `limit_left = 0`, `limit_right = 10000`,
`set_position 5000` sends exactly `G5000` on the wire, `set_position 10001`
and `set_position (-1)` raise `ValueError`, and the float `21/2` is
truncated to `10` (and `-3/2` to `-1`, toward zero). -/
theorem set_position_spec_witness :
    (set_position (mkClient [RecvEvent.timedOut, RecvEvent.bytes "a"] [])
        (PyVal.int 5000)).1.trace = [Ev.send "G5000\r"] ∧
    (set_position (mkClient [RecvEvent.timedOut, RecvEvent.bytes "a"] [])
        (PyVal.int 10001)).2 = Except.error PyErr.valueError ∧
    (set_position (mkClient [RecvEvent.timedOut, RecvEvent.bytes "a"] [])
        (PyVal.int (-1))).2 = Except.error PyErr.valueError ∧
    (set_position (mkClient [RecvEvent.timedOut, RecvEvent.bytes "a"] [])
        (PyVal.float (mkRat 21 2))).1.trace = [Ev.send "G10\r"] ∧
    ratTrunc (mkRat (-3) 2) = -1 := by
  refine ⟨?_, ?_, ?_, ?_, by decide⟩
  · exact ((set_position_spec
      (mkClient [RecvEvent.timedOut, RecvEvent.bytes "a"] []) 5000 (mkRat 21 2)
      "a" [] rfl rfl).2.1 (by decide)).2
  · exact ((set_position_spec
      (mkClient [RecvEvent.timedOut, RecvEvent.bytes "a"] []) 10001 (mkRat 21 2)
      "a" [] rfl rfl).2.2.1 (by decide)).1
  · exact ((set_position_spec
      (mkClient [RecvEvent.timedOut, RecvEvent.bytes "a"] []) (-1) (mkRat 21 2)
      "a" [] rfl rfl).2.2.1 (by decide)).1
  · exact ((set_position_spec
      (mkClient [RecvEvent.timedOut, RecvEvent.bytes "a"] []) 5000 (mkRat 21 2)
      "a" [] rfl rfl).2.2.2.1 (by decide)).2

/-- C5: a transport-level error during the response read is caught inside
`read_response` and yields `""` instead of propagating; consequently
`get_position` (which sends `TP`) returns `""` and caches `""` as the last
response when the read fails. -/
theorem read_failure_empty_response (cl cl2 : Client)
    (rest rest2 : List RecvEvent)
    (h1 : cl.recvEvents = RecvEvent.sockError :: rest)
    (h2 : cl2.recvEvents = RecvEvent.timedOut :: RecvEvent.sockError :: rest2)
    (hs : cl2.sendOutcomes = []) :
    (read_response cl).2 = Except.ok "" ∧
    (get_position cl2).2 = Except.ok "" ∧
    (get_position cl2).1.last_response = "" := by
  refine ⟨?_, ?_, ?_⟩
  · simp [read_response, recv, h1]
  · simp [get_position, send_command, clear_buffer, settimeout, setblocking,
      clearLoop, h2, hs, sendall, read_response, recv, response]
  · simp [get_position, send_command, clear_buffer, settimeout, setblocking,
      clearLoop, h2, hs, sendall, read_response, recv, response]

/-- C5 witness: on a concrete client whose response read raises
`socket.error`, `get_position` returns `""` rather than raising. -/
theorem read_failure_empty_response_witness :
    (get_position (mkClient [RecvEvent.timedOut, RecvEvent.sockError] [])).2
      = Except.ok "" :=
  (read_failure_empty_response
    (mkClient [RecvEvent.sockError] [])
    (mkClient [RecvEvent.timedOut, RecvEvent.sockError] [])
    [] [] rfl rfl rfl).2.1

/-- C6: the buffer-clear drain terminates on every (finite) schedule of
incoming data — `clear_buffer` is a total function of the schedule — it
stops on a zero-byte read or on the 100 ms timeout whenever it returns
without an exception, and on every exit (timeout, zero read, or a
propagating `socket.error`) the socket timeout is back to
indefinite/blocking (`None`). -/
theorem clear_buffer_terminates_resets_timeout (cl : Client) :
    (clear_buffer cl).1.sockTimeout = none ∧
    ((clear_buffer cl).2 = Except.ok () →
      (clearLoop cl.recvEvents).2.2 = StopReason.zeroRead ∨
      (clearLoop cl.recvEvents).2.2 = StopReason.timedOut) := by
  constructor
  · simp [clear_buffer, settimeout]
  · intro h
    apply clearLoop_ok_reason
    simpa [clear_buffer, settimeout] using h
/-- C6 witness: a concrete drain that discards one chunk and then hits a
zero-byte read leaves the timeout at `None` and stops on the zero read. -/
theorem clear_buffer_terminates_resets_timeout_witness :
    (clear_buffer (mkClient [RecvEvent.bytes "x", RecvEvent.bytes ""] [])).1.sockTimeout
        = none ∧
    ((clearLoop (mkClient [RecvEvent.bytes "x", RecvEvent.bytes ""] []).recvEvents).2.2
        = StopReason.zeroRead ∨
      (clearLoop (mkClient [RecvEvent.bytes "x", RecvEvent.bytes ""] []).recvEvents).2.2
        = StopReason.timedOut) :=
  ⟨(clear_buffer_terminates_resets_timeout
      (mkClient [RecvEvent.bytes "x", RecvEvent.bytes ""] [])).1,
   (clear_buffer_terminates_resets_timeout
      (mkClient [RecvEvent.bytes "x", RecvEvent.bytes ""] [])).2 rfl⟩

/-- C7 counterexample: the claim says the 200 ms settle delay separates
each consecutive pair of the seven sends.  In the code the `for` loop sleeps
after each of the five setup commands, but `set_speed` and
`set_acceleration` send back-to-back: a successful run of `initialize` in a
benign environment produces a trace with two adjacent sends (`SP…`, `AC…`)
and no sleep between them. -/
theorem init_back_to_back_sends :
    (init_controller (mkClient benign7 [])).2 = Except.ok () ∧
    hasAdjacentSends (init_controller (mkClient benign7 [])).1.trace = true :=
  ⟨rfl, rfl⟩

/-- C7 amended: `initialize` sends exactly `ECH0`, `PW`, `EVT1`, `HORM`,
`EVT0`, then `SP<speed>`, then `AC<acceleration>`, in order, with the 200 ms
settle delay after each of the five setup commands (hence separating the
first six consecutive pairs of sends) but with no delay between the final
`SP<speed>` and `AC<acceleration>` sends. -/
theorem init_trace_spec (cl : Client) (r1 r2 r3 r4 r5 r6 r7 : String)
    (rest : List RecvEvent)
    (hrecv : cl.recvEvents =
      [RecvEvent.timedOut, RecvEvent.bytes r1, RecvEvent.timedOut,
       RecvEvent.bytes r2, RecvEvent.timedOut, RecvEvent.bytes r3,
       RecvEvent.timedOut, RecvEvent.bytes r4, RecvEvent.timedOut,
       RecvEvent.bytes r5, RecvEvent.timedOut, RecvEvent.bytes r6,
       RecvEvent.timedOut, RecvEvent.bytes r7] ++ rest)
    (hsend : cl.sendOutcomes = [])
    (hsp : 50 ≤ cl.speed ∧ cl.speed ≤ 10000000)
    (hac : 100000 ≤ cl.acceleration ∧ cl.acceleration ≤ 10000000) :
    (init_controller cl).2 = Except.ok () ∧
    (init_controller cl).1.trace = cl.trace ++
      [Ev.send "ECH0\r", Ev.sleepMs 200, Ev.send "PW\r", Ev.sleepMs 200,
       Ev.send "EVT1\r", Ev.sleepMs 200, Ev.send "HORM\r", Ev.sleepMs 200,
       Ev.send "EVT0\r", Ev.sleepMs 200,
       Ev.send ("SP" ++ toString cl.speed ++ "\r"),
       Ev.send ("AC" ++ toString cl.acceleration ++ "\r")] := by
  constructor <;>
  simp [init_controller, initLoop, initCommands, send_command, clear_buffer,
    settimeout, setblocking, getblocking, clearLoop, sendall, read_response,
    recv, sleepMs, set_speed, set_acceleration, hsp, hac, hrecv, hsend]

/-- C7 witness: a concrete successful initialization run under the benign
seven-exchange schedule. -/
theorem init_trace_spec_witness :
    (init_controller (mkClient benign7 [])).2 = Except.ok () :=
  (init_trace_spec (mkClient benign7 []) "a" "a" "a" "a" "a" "a" "a" []
    rfl rfl (by decide) (by decide)).1

/-- C8: the response decoder strips the delimiter characters `>`, space,
CR and LF from both ends of the received bytes; sending `TP` and receiving
the raw reply `"> 1234\r\n"` caches exactly `"1234"` as the last
response. -/
theorem response_strip_spec (cl : Client) (bs : String) (rest : List RecvEvent)
    (hrecv : cl.recvEvents = RecvEvent.timedOut :: RecvEvent.bytes bs :: rest)
    (hsend : cl.sendOutcomes = []) :
    (send_command cl "TP").2 = Except.ok () ∧
    (send_command cl "TP").1.last_response = pyStrip bs ∧
    pyStrip "> 1234\r\n" = "1234" := by
  have hb := send_command_benign cl "TP" bs rest hrecv hsend
  exact ⟨by simp [hb], by simp [hb, setblocking], rfl⟩

/-- C8 witness: the concrete round trip of the claim. -/
theorem response_strip_spec_witness :
    (send_command (mkClient [RecvEvent.timedOut, RecvEvent.bytes "> 1234\r\n"] [])
      "TP").1.last_response = pyStrip "> 1234\r\n" :=
  (response_strip_spec
    (mkClient [RecvEvent.timedOut, RecvEvent.bytes "> 1234\r\n"] [])
    "> 1234\r\n" [] rfl rfl).2.1

/-- C9: `center_position` is the floor of `(limit_left + limit_right) / 2`
(the two inequalities pin it as the integer floor of the average), and on
the claim's concrete limits: `(0, 10000) ↦ 5000` and `(1, 10000) ↦ 5000`
(truncation of `5000.5`, not rounding). -/
theorem center_position_spec (cl : Client) :
    2 * center_position cl ≤ cl.limit_left + cl.limit_right ∧
    cl.limit_left + cl.limit_right < 2 * center_position cl + 2 ∧
    center_position { cl with limit_left := 0, limit_right := 10000 } = 5000 ∧
    center_position { cl with limit_left := 1, limit_right := 10000 } = 5000 := by
  refine ⟨?_, ?_, ?_, ?_⟩
  · rw [center_position, Int.fdiv_eq_ediv _ (by norm_num)]; omega
  · rw [center_position, Int.fdiv_eq_ediv _ (by norm_num)]; omega
  · simp [center_position]
  · simp [center_position]

/-- C9 witness: the concrete limits of the claim on a concrete client. -/
theorem center_position_spec_witness :
    center_position { mkClient [] [] with limit_left := 1, limit_right := 10000 }
      = 5000 :=
  (center_position_spec (mkClient [] [])).2.2.2

/-- C10: both numeric paths of `set_position` route through the bounds
check on the narrowed integer, and for an accepted value the only
client-side field changed is `last_response` (via the command exchange):
address, port, limits, speed, acceleration and the connection handle are
unchanged, and no commanded position is stored. -/
theorem set_position_frame (cl : Client) (value : Int) (q : ℚ) (r : String)
    (rest : List RecvEvent)
    (hrecv : cl.recvEvents = RecvEvent.timedOut :: RecvEvent.bytes r :: rest)
    (hsend : cl.sendOutcomes = [])
    (hin : cl.limit_left ≤ value ∧ value ≤ cl.limit_right) :
    set_position cl (PyVal.int value) = set_position_checked cl value ∧
    set_position cl (PyVal.float q) = set_position_checked cl (ratTrunc q) ∧
    (set_position_checked cl value).2 = Except.ok () ∧
    (set_position_checked cl value).1.ip_address = cl.ip_address ∧
    (set_position_checked cl value).1.port = cl.port ∧
    (set_position_checked cl value).1.limit_left = cl.limit_left ∧
    (set_position_checked cl value).1.limit_right = cl.limit_right ∧
    (set_position_checked cl value).1.speed = cl.speed ∧
    (set_position_checked cl value).1.acceleration = cl.acceleration ∧
    (set_position_checked cl value).1.sockClosed = cl.sockClosed ∧
    (set_position_checked cl value).1.last_response = pyStrip r := by
  have hb := send_command_benign cl ("G" ++ toString value) r rest hrecv hsend
  refine ⟨rfl, rfl, ?_, ?_, ?_, ?_, ?_, ?_, ?_, ?_, ?_⟩ <;>
    simp [set_position_checked, hin, hb, setblocking]

/-- C10 witness: the frame condition at a concrete accepted position. -/
theorem set_position_frame_witness :
    (set_position_checked (mkClient [RecvEvent.timedOut, RecvEvent.bytes "a"] [])
        5000).1.speed
      = (mkClient [RecvEvent.timedOut, RecvEvent.bytes "a"] []).speed :=
  (set_position_frame (mkClient [RecvEvent.timedOut, RecvEvent.bytes "a"] [])
    5000 (mkRat 1 2) "a" [] rfl rfl (by decide)).2.2.2.2.2.2.2.1

end Xenax
